import Mathlib

/-!
Verification of the dialectical state simulation and risk-classification engine of the
Xenopoulos Genetic-Historical Logic System (XEPTQLRI).

The definitions below are a shallow embedding of the Python sources:
* `src/xenopoulos_system.py` (the main engine, class `XenopoulosGeneticHistoricalSystem`);
* `src/tested-codes-by-katerina xenopoulou/02_quantum_denoising/InteractiveQuantumDenoisingAndXenopoulos.py`
  (the quantum-denoising variant, class prefix `Q`-free, methods `_dialectical_negation`,
  `_calculate_tension`, `_classify_stage`).

Python floats are idealised as real numbers.  Every call to the (seeded) global NumPy
random generator is modelled as reading the next value from an explicit stream of reals:
`np.random.rand()` draws lie in `[0,1)` and `np.random.randn()` draws are arbitrary reals,
but nothing below depends on the distribution, only on the draw order.
-/

namespace Xeno

/-- Embeds `np.clip(x, lo, hi)` (for `lo ≤ hi`): clamp `x` into the interval `[lo, hi]`. -/
noncomputable def clip (x lo hi : ℝ) : ℝ := max lo (min x hi)

/-- Embeds the Python slice `l[-n:]`: the last `n` elements of `l` (all of `l` if shorter). -/
def lastN (n : ℕ) (l : List α) : List α := l.drop (l.length - n)

/-- Embeds `np.mean` on a list of floats (NumPy returns NaN on `[]`; here `0/0 = 0`). -/
noncomputable def npMean (l : List ℝ) : ℝ := l.sum / l.length

/-- Population variance, the square of `np.std`. -/
noncomputable def npVar (l : List ℝ) : ℝ :=
  ((l.map fun x => (x - npMean l) ^ 2).sum) / l.length

/-- Embeds `np.std` (population standard deviation). -/
noncomputable def npStd (l : List ℝ) : ℝ := Real.sqrt (npVar l)

/-- Local `extremity_score` of `_calculate_paradox_score` in `src/xenopoulos_system.py`
(line 188): `min(abs(state), abs(anti_state))`. -/
noncomputable def extremity_score (state anti_state : ℝ) : ℝ := min |state| |anti_state|

/-- Embeds `_calculate_paradox_score` of `src/xenopoulos_system.py` (lines 184-208).
The two history lists are `self.history_A` and `self.history_anti_A` at call time. -/
noncomputable def calculate_paradox_score (history_A history_anti_A : List ℝ)
    (state anti_state tension : ℝ) : ℝ :=
  let symmetry_score := 1 - |(|state| - |anti_state|)|
  let tension_paradox : ℝ :=
    if extremity_score state anti_state > 0.7 ∧ tension < 0.3 then 0.5 else 0
  let persistence_score : ℝ :=
    if history_A.length > 10 ∧
        npMean ((lastN 10 history_A).map fun s => |s|) > 0.7 ∧
        npMean ((lastN 10 history_anti_A).map fun a => |a|) > 0.7 then 0.3 else 0
  clip (extremity_score state anti_state * 0.4 + symmetry_score * 0.3 +
    tension_paradox * 0.2 + persistence_score * 0.1) 0 1

/-- Embeds `_enhanced_stage_classification` of `src/xenopoulos_system.py` (lines 210-243).
Returns the stage index; `history_stages` is `self.history_stages` at call time.  The
nested Python `if` blocks without `else` (fall-through) are flattened into a priority
chain of conjunctions. -/
noncomputable def enhanced_stage_classification (aufhebung_threshold : ℝ)
    (history_stages : List ℕ) (tension_score current_A current_anti_A paradox_score : ℝ) : ℕ :=
  if |current_A| > 0.8 ∧ |current_anti_A| > 0.8 ∧ tension_score < 0.4 then 6
  else if tension_score < 0.3 ∧ (|current_A| > 0.7 ∨ |current_anti_A| > 0.7) then 7
  else if history_stages.length > 20 ∧
      ((lastN 20 history_stages).dedup.length ≥ 4 ∧
        npStd ((lastN 20 history_stages).map fun n => (n : ℝ)) > 1.5) then 8
  else if paradox_score > 0.8 ∧ tension_score > 0.6 then 9
  else if tension_score < 0.15 then 0
  else if tension_score < 0.35 then 1
  else if tension_score < 0.55 then 2
  else if tension_score < 0.75 then 3
  else if tension_score < aufhebung_threshold then 4
  else 5

/-- Embeds the `trend_factor` assignment chain of `_calculate_enhanced_XEPTQLRI` in
`src/xenopoulos_system.py` (lines 249-253): `1.0`, overwritten by `1.5` when
`historical_trend > 0.1`, with an `elif historical_trend > 0.3` arm assigning `2.0`. -/
noncomputable def trend_factor (historical_trend : ℝ) : ℝ :=
  if historical_trend > 0.1 then 1.5
  else if historical_trend > 0.3 then 2.0
  else 1.0

/-- Embeds `_dialectical_conjunction_intensity` of `src/xenopoulos_system.py`
(lines 168-182); `z` is the single `np.random.randn()` draw made inside the call. -/
noncomputable def dialectical_conjunction_intensity (volatility z state anti_state : ℝ) : ℝ :=
  let raw_intensity := |state * anti_state|
  let complexity_factor :=
    if |state| > 0.8 ∧ |anti_state| > 0.8 then 1.5 + volatility * z
    else 1 + volatility * z
  clip (raw_intensity * complexity_factor) 0 1

/-- Embeds `_calculate_enhanced_XEPTQLRI` of `src/xenopoulos_system.py` (lines 245-276);
`z` is the `np.random.randn()` draw of the stochastic factor, `history_A` is
`self.history_A` at call time. -/
noncomputable def calculate_enhanced_XEPTQLRI (aufhebung_threshold volatility : ℝ)
    (history_A : List ℝ) (z : ℝ)
    (tension historical_trend current_A current_anti_A paradox_score : ℝ) : ℝ :=
  let paradox_factor : ℝ :=
    if paradox_score > 0.7 then (if tension < 0.3 then 1.8 else 2.0) else 1.0
  let extremity_multiplier : ℝ :=
    if |current_A| > 0.8 ∧ |current_anti_A| > 0.8 then 1.5 else 1.0
  let e1 := tension * trend_factor historical_trend * paradox_factor *
    extremity_multiplier / aufhebung_threshold
  let stochastic_factor := 1 + volatility * 0.3 * z
  let e2 := e1 * stochastic_factor
  let e3 :=
    if history_A.length > 50 ∧
        npMean ((lastN 50 history_A).map fun x => if |x| > 0.8 then (1 : ℝ) else 0) > 0.7
      then e2 * 1.3 else e2
  clip e3 0 3.0

/-- Embeds `_calculate_tension` of the quantum-denoising variant (lines 89-101): the
non-linear boost `** 0.7 * 1.5` when both poles are extreme, `** 0.8 * 1.2` when either
magnitude exceeds `0.6`, clipped to `[0,1]`. -/
noncomputable def calculate_tension (state anti_state : ℝ) : ℝ :=
  let raw_intensity := |state * anti_state|
  let intensity :=
    if |state| > 0.8 ∧ |anti_state| > 0.8 then raw_intensity ^ (0.7 : ℝ) * 1.5
    else if |state| > 0.6 ∨ |anti_state| > 0.6 then raw_intensity ^ (0.8 : ℝ) * 1.2
    else raw_intensity
  clip intensity 0 1

/-- Embeds `_classify_stage` of the quantum-denoising variant (lines 137-169). -/
noncomputable def classify_stage (aufhebung_threshold : ℝ) (history_stages : List ℕ)
    (tension current_A current_anti_A : ℝ) : ℕ :=
  if |current_A| > 0.85 ∧ |current_anti_A| > 0.85 ∧ tension < 0.4 then 6
  else if tension < 0.25 ∧ (|current_A| > 0.75 ∨ |current_anti_A| > 0.75) then 7
  else if history_stages.length > 20 ∧
      (npStd ((lastN 20 history_stages).map fun n => (n : ℝ)) > 1.8 ∧
        npMean ((lastN 20 history_stages).map fun n => (n : ℝ)) > 3) then 8
  else if tension < 0.15 then 0
  else if tension < 0.30 then 1
  else if tension < 0.45 then 2
  else if tension < 0.60 then 3
  else if tension < aufhebung_threshold then 4
  else 5

theorem clip_mem (x lo hi : ℝ) (h : lo ≤ hi) : lo ≤ clip x lo hi ∧ clip x lo hi ≤ hi :=
  ⟨le_max_left _ _, max_le h (min_le_right _ _)⟩

/-- The seeded global NumPy generator, modelled as a stream of reals together with a
cursor; `np.random.seed(seed)` fixes the stream, each `rand()`/`randn()` call reads the
value at the cursor and advances it. -/
structure Rng where
  stream : ℕ → ℝ
  pos : ℕ

/-- Read one draw and advance the cursor. -/
def Rng.next (r : Rng) : ℝ × Rng := (r.stream r.pos, ⟨r.stream, r.pos + 1⟩)

/-- The constructor parameters of `XenopoulosGeneticHistoricalSystem.__init__`
(`src/xenopoulos_system.py` lines 49-51); the seed is carried separately as the
`Rng` stream it determines. -/
structure Config where
  initial_state_A : ℝ
  historical_horizon : ℕ
  aufhebung_threshold : ℝ
  volatility_factor : ℝ
  system_name : String

/-- The mutable numeric state of one run: the current pole pair, the history lists
appended to by `simulate_enhanced_historical_process`, and the generator position. -/
structure SimState where
  A : ℝ
  anti_A : ℝ
  history_A : List ℝ
  history_anti_A : List ℝ
  history_tension : List ℝ
  history_XEPTQLRI : List ℝ
  history_stages : List ℕ
  history_paradox_scores : List ℝ
  phase_history : List ℕ
  rng : Rng

/-- Embeds `_enhanced_dialectical_negation` of `src/xenopoulos_system.py` (lines 146-166).
Draw order matches the source: `np.random.rand()` for the preservation factor, then
`np.random.randn()` for the paradox feedback (only when the feedback branch is taken),
then `np.random.randn()` for the stochastic component.  Returns the negation value and
the advanced generator. -/
noncomputable def enhanced_dialectical_negation (volatility : ℝ)
    (history_A history_paradox_scores : List ℝ) (state : ℝ) (rng : Rng) : ℝ × Rng :=
  let d1 := rng.next
  let preservation_factor := 0.8 + 0.2 * d1.1
  let historical_effect : ℝ :=
    if history_A.length > 0 then
      0.1 * Real.tanh (npMean (if history_A.length ≥ 10 then lastN 10 history_A else history_A))
    else 0
  let fb : ℝ × Rng :=
    if history_paradox_scores.length > 0 ∧ npMean (lastN 5 history_paradox_scores) > 0.7 then
      let d2 := d1.2.next
      (0.05 * d2.1, d2.2)
    else (0, d1.2)
  let d3 := fb.2.next
  let enhanced_negation := -state * preservation_factor * (1 + historical_effect + fb.1)
  let stochastic_component := volatility * 0.1 * d3.1
  (enhanced_negation + stochastic_component, d3.2)

/-- Embeds the `phase_boundaries` list of `simulate_enhanced_historical_process`
(lines 294-302); `int(...)` truncation of a nonnegative float is `Nat.floor`. -/
noncomputable def phase_boundaries (horizon : ℕ) : List ℕ :=
  [⌊(horizon : ℝ) * 0.2⌋₊, ⌊(horizon : ℝ) * 0.4⌋₊, ⌊(horizon : ℝ) * 0.6⌋₊,
    ⌊(horizon : ℝ) * 0.75⌋₊, ⌊(horizon : ℝ) * 0.85⌋₊, ⌊(horizon : ℝ) * 0.95⌋₊, horizon]

/-- Embeds the phase-selection loop (lines 306-310): the first boundary index with
`step < boundary`, or `0` when none matches. -/
noncomputable def current_phase (horizon step : ℕ) : ℕ :=
  match (phase_boundaries horizon).findIdx? (fun b => decide (step < b)) with
  | some p => p
  | none => 0

/-- The `pressure` column of the `phase_params` table (lines 313-321). -/
noncomputable def phase_pressure : ℕ → ℝ
  | 0 => 0.02
  | 1 => 0.05
  | 2 => 0.10
  | 3 => 0.15
  | 4 => 0.20
  | 5 => 0.25
  | _ => 0.30

/-- The `volatility` column of the `phase_params` table (lines 313-321). -/
noncomputable def phase_volatility : ℕ → ℝ
  | 0 => 0.01
  | 1 => 0.03
  | 2 => 0.05
  | 3 => 0.08
  | 4 => 0.12
  | 5 => 0.15
  | _ => 0.20

/-- The `phase_pattern` table (lines 336-344): the oscillatory historical-trend term. -/
noncomputable def phase_pattern (step : ℕ) : ℕ → ℝ
  | 0 => 0.01 * Real.sin ((step : ℝ) * 0.05)
  | 1 => 0.02 * Real.sin ((step : ℝ) * 0.08)
  | 2 => 0.03 * Real.sin ((step : ℝ) * 0.12)
  | 3 => 0.04 * Real.sin ((step : ℝ) * 0.18)
  | 4 => 0.05 * Real.sin ((step : ℝ) * 0.25)
  | 5 => 0.06 * Real.sin ((step : ℝ) * 0.35)
  | _ => 0.03 * Real.sin ((step : ℝ) * 0.10)

/-- Slope coefficient of `np.polyfit(range(10), ys, 1)` for a 10-point window: the
least-squares slope with abscissas `0..9` (mean `4.5`, squared deviation sum `82.5`). -/
noncomputable def polyfit_slope_10 (ys : List ℝ) : ℝ :=
  (((List.range 10).zip ys).map fun p => ((p.1 : ℝ) - 4.5) * (p.2 - npMean ys)).sum / 82.5

/-- Embeds one iteration of the loop body of `simulate_enhanced_historical_process`
(lines 304-406).  Within a step the source computes, in order: the phase, the new
negation (times the historical factor `1 + 0.003·step`), the tension from the old `A`
and the new negation, the updated and clamped `A`, the recent tension trend, the paradox
score, the risk index, and the stage; it then appends everything to the histories. -/
noncomputable def sim_step (cfg : Config) (step : ℕ) (st : SimState) : SimState :=
  let phase := current_phase cfg.historical_horizon step
  let historical_factor := 1 + 0.003 * (step : ℝ)
  let nr := enhanced_dialectical_negation cfg.volatility_factor
    st.history_A st.history_paradox_scores st.A st.rng
  let current_anti_A := nr.1 * historical_factor
  let d1 := nr.2.next
  let current_tension := dialectical_conjunction_intensity cfg.volatility_factor d1.1
    st.A current_anti_A
  let dialectical_pressure := current_tension * phase_pressure phase
  let historical_trend := phase_pattern step phase
  let d2 := d1.2.next
  let systemic_noise := phase_volatility phase * d2.1
  let current_A := clip (st.A + dialectical_pressure + historical_trend + systemic_noise)
    (-1.2) 1.2
  let recent_trend : ℝ :=
    if step > 10 then
      (if st.history_tension.length ≥ 10 then polyfit_slope_10 (lastN 10 st.history_tension)
        else 0)
    else 0
  let paradox_score := calculate_paradox_score st.history_A st.history_anti_A
    current_A current_anti_A current_tension
  let d3 := d2.2.next
  let enhanced_XEPTQLRI := calculate_enhanced_XEPTQLRI cfg.aufhebung_threshold
    cfg.volatility_factor st.history_A d3.1
    current_tension recent_trend current_A current_anti_A paradox_score
  let stage_idx := enhanced_stage_classification cfg.aufhebung_threshold st.history_stages
    current_tension current_A current_anti_A paradox_score
  ⟨current_A, current_anti_A,
    st.history_A ++ [current_A],
    st.history_anti_A ++ [current_anti_A],
    st.history_tension ++ [current_tension],
    st.history_XEPTQLRI ++ [enhanced_XEPTQLRI],
    st.history_stages ++ [stage_idx],
    st.history_paradox_scores ++ [paradox_score],
    st.phase_history ++ [phase],
    d3.2⟩

/-- Embeds `_determine_true_system_state` of `src/xenopoulos_system.py` (lines 558-599):
the report's secondary decision tree over the last 100 steps, guarded by the
minimum-window check `len(self.history_A) < 100`. -/
noncomputable def determine_true_system_state (history_A history_anti_A
    history_paradox_scores : List ℝ) (history_stages : List ℕ)
    (history_XEPTQLRI : List ℝ) : String :=
  if history_A.length < 100 then "INSUFFICIENT_DATA"
  else
    let recent_A := lastN 100 history_A
    let recent_anti := lastN 100 history_anti_A
    let recent_paradox := lastN 100 history_paradox_scores
    let recent_stages := lastN 100 history_stages
    let time_at_extremes := npMean (recent_A.map fun x => if |x| > 0.8 then (1 : ℝ) else 0)
    let simultaneous_extremes := npMean ((recent_A.zip recent_anti).map
      fun p => if |p.1| > 0.8 ∧ |p.2| > 0.8 then (1 : ℝ) else 0)
    let paradox_persistence := npMean (recent_paradox.map
      fun p => if p > 0.7 then (1 : ℝ) else 0)
    let stage_variability := npStd (recent_stages.map fun n => (n : ℝ))
    if paradox_persistence > 0.6 then
      (if time_at_extremes > 0.7 then "PERMANENT_PARADOXICAL_TRANSCENDENCE"
        else "INTERMITTENT_PARADOXICAL_STATE")
    else if simultaneous_extremes > 0.5 then "SIMULTANEOUS_EXTREMITY_REGIME"
    else if time_at_extremes > 0.8 then "PERMANENT_TRANSCENDENCE"
    else if stage_variability > 2.0 then "CHAOTIC_DIALECTICS"
    else if npMean (lastN 100 history_XEPTQLRI) < 0.3 then
      (if time_at_extremes > 0.3 then "FALSE_STABILITY_REGIME" else "TRUE_STABILITY")
    else "DYNAMIC_EQUILIBRIUM"

theorem clip_of_mem (x lo hi : ℝ) (h1 : lo ≤ x) (h2 : x ≤ hi) : clip x lo hi = x := by
  unfold clip
  rw [min_eq_left h2, max_eq_right h1]

theorem clip_of_ge (x lo hi : ℝ) (h1 : lo ≤ hi) (h2 : hi ≤ x) : clip x lo hi = hi := by
  unfold clip
  rw [min_eq_right h2, max_eq_right h1]

theorem sim_step_anti_A (cfg : Config) (step : ℕ) (st : SimState) :
    (sim_step cfg step st).anti_A =
      (enhanced_dialectical_negation cfg.volatility_factor st.history_A
        st.history_paradox_scores st.A st.rng).1 * (1 + 0.003 * (step : ℝ)) := rfl

/-- C9: in the main engine's risk-index calculation, the trend factor equals 1.5 exactly
when the historical trend exceeds 0.1 and 1.0 otherwise; the `elif` arm that assigns 2.0
(guarded by `historical_trend > 0.3` after the `> 0.1` test) is unreachable for every
input, since any value above 0.3 already takes the first branch. -/
theorem trend_factor_two_unreachable (historical_trend : ℝ) :
    trend_factor historical_trend = (if historical_trend > 0.1 then 1.5 else 1.0) ∧
    trend_factor historical_trend ≠ 2.0 := by
  unfold trend_factor
  by_cases h1 : historical_trend > 0.1
  · rw [if_pos h1, if_pos h1]
    exact ⟨rfl, by norm_num⟩
  · have h3 : ¬ historical_trend > 0.3 := fun h => h1 (by linarith)
    rw [if_neg h1, if_neg h1, if_neg h3]
    exact ⟨rfl, by norm_num⟩

/-- C2: at any step where both pole magnitudes exceed 0.85 and the tension is below 0.4,
both the main engine's classifier and the quantum-denoising classifier return stage τ₆
(Paradoxical Transcendence).  The paradox rule is the first predicate tested, so no
other rule can preempt it, whatever the stage history, threshold and paradox score are. -/
theorem paradox_rule_stage6 (threshold : ℝ) (stagesM stagesQ : List ℕ)
    (tension A antiA pscore : ℝ)
    (hA : |A| > 0.85) (hAnti : |antiA| > 0.85) (ht : tension < 0.4) :
    enhanced_stage_classification threshold stagesM tension A antiA pscore = 6 ∧
    classify_stage threshold stagesQ tension A antiA = 6 := by
  constructor
  · unfold enhanced_stage_classification
    rw [if_pos ⟨by linarith, by linarith, ht⟩]
  · unfold classify_stage
    rw [if_pos ⟨hA, hAnti, ht⟩]

/-- Witness for C2 at the concrete input A = 0.9, anti_A = 0.9, tension = 0.2. -/
theorem paradox_rule_stage6_witness :
    (|(0.9 : ℝ)| > 0.85 ∧ |(0.9 : ℝ)| > 0.85 ∧ (0.2 : ℝ) < 0.4) ∧
    (enhanced_stage_classification 0.85 [] 0.2 0.9 0.9 0 = 6 ∧
      classify_stage 0.85 [] 0.2 0.9 0.9 = 6) := by
  have h : |(0.9 : ℝ)| > 0.85 := by
    rw [abs_of_pos] <;> norm_num
  exact ⟨⟨h, h, by norm_num⟩,
    paradox_rule_stage6 0.85 [] [] 0.2 0.9 0.9 0 h h (by norm_num)⟩

/-- C8: whenever fewer than 100 steps are recorded, the report's true-system-state
diagnosis is the explicit INSUFFICIENT_DATA label, never a decision-tree diagnosis. -/
theorem insufficient_data_guard (hA hAnti hP : List ℝ) (hS : List ℕ) (hX : List ℝ)
    (hlen : hA.length < 100) :
    determine_true_system_state hA hAnti hP hS hX = "INSUFFICIENT_DATA" := by
  unfold determine_true_system_state
  rw [if_pos hlen]

/-- Witness for C8 on a run with an empty history. -/
theorem insufficient_data_guard_witness :
    ([] : List ℝ).length < 100 ∧
    determine_true_system_state [] [] [] [] [] = "INSUFFICIENT_DATA" :=
  ⟨by decide, insufficient_data_guard [] [] [] [] [] (by decide)⟩

/-- C3: for the forced pair A = 0.9, negA = 0.9 the quantum-variant tension is
|0.81| ^ 0.7 × 1.5 clipped into [0,1], which evaluates to 1; the extremity component of
the paradox score is 0.9; and the main engine's intensity at the same pair (with a zero
stochastic draw) is likewise clipped to 1. -/
theorem forced_pair_tension_extremity :
    calculate_tension 0.9 0.9 = clip (|(0.81 : ℝ)| ^ (0.7 : ℝ) * 1.5) 0 1 ∧
    calculate_tension 0.9 0.9 = 1 ∧
    extremity_score 0.9 0.9 = 0.9 ∧
    dialectical_conjunction_intensity 0.03 0 0.9 0.9 = 1 := by
  have habs : |(0.9 : ℝ)| = 0.9 := abs_of_pos (by norm_num)
  have hraw : |(0.9 : ℝ) * 0.9| = |(0.81 : ℝ)| := by norm_num
  have habs81 : |(0.81 : ℝ)| = 0.81 := abs_of_pos (by norm_num)
  have hpow : (0.81 : ℝ) ≤ (0.81 : ℝ) ^ (0.7 : ℝ) := by
    calc (0.81 : ℝ) = (0.81 : ℝ) ^ (1 : ℝ) := (Real.rpow_one _).symm
      _ ≤ (0.81 : ℝ) ^ (0.7 : ℝ) :=
        Real.rpow_le_rpow_of_exponent_ge (by norm_num) (by norm_num) (by norm_num)
  have h1 : calculate_tension 0.9 0.9 = clip (|(0.81 : ℝ)| ^ (0.7 : ℝ) * 1.5) 0 1 := by
    simp only [calculate_tension]
    rw [if_pos ⟨by rw [habs]; norm_num, by rw [habs]; norm_num⟩, hraw]
  refine ⟨h1, ?_, ?_, ?_⟩
  · rw [h1, habs81]
    exact clip_of_ge _ _ _ (by norm_num) (by nlinarith)
  · unfold extremity_score
    rw [habs, min_self]
  · simp only [dialectical_conjunction_intensity]
    rw [if_pos ⟨by rw [habs]; norm_num, by rw [habs]; norm_num⟩]
    rw [show |(0.9 : ℝ) * 0.9| * (1.5 + 0.03 * 0) = 1.215 by
      rw [show (0.9 : ℝ) * 0.9 = 0.81 by norm_num, habs81]; norm_num]
    exact clip_of_ge _ _ _ (by norm_num) (by norm_num)

theorem paradox_score_le_when_tension_high (hA hAnti : List ℝ) (A antiA tension : ℝ)
    (h1 : |A| ≤ 1) (ht : ¬ tension < 0.3) :
    calculate_paradox_score hA hAnti A antiA tension ≤ 0.73 := by
  have hext : extremity_score A antiA ≤ 1 := le_trans (min_le_left _ _) h1
  have hext0 : 0 ≤ extremity_score A antiA := le_min (abs_nonneg _) (abs_nonneg _)
  have hsym : 1 - |(|A| - |antiA|)| ≤ 1 := by
    have h := abs_nonneg (|A| - |antiA|)
    linarith
  simp only [calculate_paradox_score]
  rw [if_neg fun h => ht h.2]
  split_ifs with hc
  · unfold clip
    refine max_le (by norm_num) (le_trans (min_le_left _ _) ?_)
    linarith
  · unfold clip
    refine max_le (by norm_num) (le_trans (min_le_left _ _) ?_)
    linarith

/-- C10: when both input magnitudes are at most 1 and the paradox score fed to the
classifier is the one `_calculate_paradox_score` computes from the same pole pair and
tension (as the simulation loop does), the main engine's classifier can never return
stage τ₉ (Meta-Transcendence): the τ₉ rule needs paradox score > 0.8 together with
tension > 0.6, but tension above 0.3 zeroes the tension-paradox component, capping the
score at 0.4 + 0.3 + 0.1·0.3 = 0.73. -/
theorem stage9_unreachable (threshold tension A antiA : ℝ) (hA hAnti : List ℝ)
    (stages : List ℕ) (h1 : |A| ≤ 1) (h2 : |antiA| ≤ 1) :
    enhanced_stage_classification threshold stages tension A antiA
      (calculate_paradox_score hA hAnti A antiA tension) ≠ 9 := by
  intro hcontra
  unfold enhanced_stage_classification at hcontra
  split_ifs at hcontra with h6 h7 h8 h9
  all_goals try exact absurd hcontra (by decide)
  obtain ⟨hp, ht6⟩ := h9
  have hle := paradox_score_le_when_tension_high hA hAnti A antiA tension h1 (by linarith)
  linarith

/-- Witness for C10 at the concrete input A = 0.5, anti_A = 0.5, tension = 0.7. -/
theorem stage9_unreachable_witness :
    (|(0.5 : ℝ)| ≤ 1 ∧ |(0.5 : ℝ)| ≤ 1) ∧
    enhanced_stage_classification 0.85 [] 0.7 0.5 0.5
      (calculate_paradox_score [] [] 0.5 0.5 0.7) ≠ 9 := by
  have h : |(0.5 : ℝ)| ≤ 1 := by
    rw [abs_of_pos] <;> norm_num
  exact ⟨⟨h, h⟩, stage9_unreachable 0.85 0.7 0.5 0.5 [] [] [] h h⟩

/-- C1 (amended): per step of the main engine's run, the updated state A is clamped into
[-1.2, 1.2], the tension lies in [0,1], the paradox score lies in [0,1], and the risk
index XEPTQLRI lies in [0,3] — but not the negation anti_A, which is never clamped (see
the counterexample theorem). -/
theorem step_bounds_amended (cfg : Config) (step : ℕ) (st : SimState)
    (volatility z state anti_state tension historical_trend pscore zr threshold : ℝ)
    (hA hAnti hA2 : List ℝ) :
    (-1.2 ≤ (sim_step cfg step st).A ∧ (sim_step cfg step st).A ≤ 1.2) ∧
    (0 ≤ dialectical_conjunction_intensity volatility z state anti_state ∧
      dialectical_conjunction_intensity volatility z state anti_state ≤ 1) ∧
    (0 ≤ calculate_paradox_score hA hAnti state anti_state tension ∧
      calculate_paradox_score hA hAnti state anti_state tension ≤ 1) ∧
    (0 ≤ calculate_enhanced_XEPTQLRI threshold volatility hA2 zr tension historical_trend
        state anti_state pscore ∧
      calculate_enhanced_XEPTQLRI threshold volatility hA2 zr tension historical_trend
        state anti_state pscore ≤ 3) := by
  refine ⟨?_, ?_, ?_, ?_⟩
  · obtain ⟨x, hx⟩ : ∃ x, (sim_step cfg step st).A = clip x (-1.2) 1.2 := ⟨_, rfl⟩
    rw [hx]
    exact clip_mem _ _ _ (by norm_num)
  · obtain ⟨x, hx⟩ :
        ∃ x, dialectical_conjunction_intensity volatility z state anti_state = clip x 0 1 :=
      ⟨_, rfl⟩
    rw [hx]
    exact clip_mem _ _ _ (by norm_num)
  · obtain ⟨x, hx⟩ :
        ∃ x, calculate_paradox_score hA hAnti state anti_state tension = clip x 0 1 :=
      ⟨_, rfl⟩
    rw [hx]
    exact clip_mem _ _ _ (by norm_num)
  · obtain ⟨x, hx⟩ :
        ∃ x, calculate_enhanced_XEPTQLRI threshold volatility hA2 zr tension
          historical_trend state anti_state pscore = clip x 0 3.0 := ⟨_, rfl⟩
    rw [hx]
    have h := clip_mem x 0 3.0 (by norm_num)
    exact ⟨h.1, by linarith [h.2]⟩

/-- A 20-step history of zero states. -/
noncomputable def c1_hist : List ℝ :=
  [0, 0, 0, 0, 0, 0, 0, 0, 0, 0, 0, 0, 0, 0, 0, 0, 0, 0, 0, 0]

/-- A concrete draw stream: the preservation draw is 1/2, every later draw is 0. -/
noncomputable def c1_stream : ℕ → ℝ := fun n => if n = 0 then 1 / 2 else 0

/-- A concrete mid-run state: A = 1.2 (inside the clamp bounds), twenty recorded zero
states, no recorded paradox scores. -/
noncomputable def c1_state : SimState :=
  ⟨1.2, 0, c1_hist, [], [], [], [], [], [], ⟨c1_stream, 0⟩⟩

/-- The default main-engine parameters used for the C1 counterexample. -/
noncomputable def c1_cfg : Config := ⟨0.3, 200, 0.85, 0.03, "Default System"⟩

/-- Counterexample to C1 as stated: at step 100 of a run, with the incoming state A = 1.2
inside the clamp bounds and ordinary draws (rand = 1/2, every randn = 0), the computed
negation anti_A is -1.08 × (1 + 0.003·100) = -1.404, outside [-1.2, 1.2]: the main
engine never clamps anti_A, and the historical factor grows it past any fixed bound. -/
theorem anti_A_escapes_clamp :
    (-1.2 ≤ c1_state.A ∧ c1_state.A ≤ 1.2) ∧
    (sim_step c1_cfg 100 c1_state).anti_A < -1.2 := by
  have hstA : c1_state.A = 1.2 := rfl
  refine ⟨⟨by rw [hstA]; norm_num, by rw [hstA]⟩, ?_⟩
  rw [sim_step_anti_A]
  have hlast : lastN 10 c1_hist = [0, 0, 0, 0, 0, 0, 0, 0, 0, 0] := rfl
  have hmean : npMean (lastN 10 c1_hist) = 0 := by
    rw [hlast]
    simp [npMean]
  have hlen : c1_hist.length = 20 := rfl
  have hc0 : c1_stream 0 = 1 / 2 := by simp [c1_stream]
  have hc1 : c1_stream 1 = 0 := by simp [c1_stream]
  have hneg : (enhanced_dialectical_negation c1_cfg.volatility_factor c1_state.history_A
      c1_state.history_paradox_scores c1_state.A c1_state.rng).1 = -1.08 := by
    show (enhanced_dialectical_negation 0.03 c1_hist [] 1.2 ⟨c1_stream, 0⟩).1 = -1.08
    norm_num [enhanced_dialectical_negation, Rng.next, hlen, hmean, hc0, hc1,
      Real.tanh_zero]
  rw [hneg]
  norm_num

/-- Modelled from the claim's reading of the spec (§3, §4.4), for comparison with
`calculate_paradox_score`: the weighted sum 0.4·extremity + 0.3·symmetry +
0.2·indicator + 0.1·persistence clipped to [0,1], where the indicator is 1 when both
pole magnitudes exceed 0.7 and tension is below the low-tension cutoff 0.3 (else 0),
and persistence is the fraction of the last 10 steps with both pole magnitudes
above 0.7. -/
noncomputable def paradox_score_claim (history_A history_anti_A : List ℝ)
    (state anti_state tension : ℝ) : ℝ :=
  let pairs := (lastN 10 history_A).zip (lastN 10 history_anti_A)
  let persistence : ℝ :=
    ((pairs.filter fun p => decide (|p.1| > 0.7 ∧ |p.2| > 0.7)).length : ℝ) /
      (pairs.length : ℝ)
  clip (0.4 * min |state| |anti_state| + 0.3 * (1 - |(|state| - |anti_state|)|) +
    0.2 * (if min |state| |anti_state| > 0.7 ∧ tension < 0.3 then (1 : ℝ) else 0) +
    0.1 * persistence) 0 1

/-- Counterexample to C4 as stated: at state = 0.8, anti_state = 0.8, tension = 0.2 with
empty histories, the code's paradox score is 0.72 (the tension-paradox component is the
constant 0.5, weighted to 0.1), while the claimed formula with an indicator of value 1
gives 0.82. -/
theorem paradox_score_formula_counterexample :
    calculate_paradox_score [] [] 0.8 0.8 0.2 ≠ paradox_score_claim [] [] 0.8 0.8 0.2 := by
  have habs : |(0.8 : ℝ)| = 0.8 := abs_of_pos (by norm_num)
  have hl : calculate_paradox_score [] [] 0.8 0.8 0.2 = 0.72 := by
    simp only [calculate_paradox_score, extremity_score, habs, min_self]
    rw [if_pos ⟨by norm_num, by norm_num⟩, if_neg (by simp)]
    rw [show (0.8 : ℝ) * 0.4 + (1 - |(0.8 : ℝ) - 0.8|) * 0.3 + 0.5 * 0.2 + 0 * 0.1 = 0.72 by
      rw [sub_self, abs_zero]; norm_num]
    exact clip_of_mem _ _ _ (by norm_num) (by norm_num)
  have hr : paradox_score_claim [] [] 0.8 0.8 0.2 = 0.82 := by
    simp only [paradox_score_claim, lastN, List.length_nil, List.drop_nil,
      List.zip_nil_right, List.filter_nil, Nat.cast_zero]
    rw [habs, min_self, if_pos ⟨by norm_num, by norm_num⟩]
    rw [show (0.4 : ℝ) * 0.8 + 0.3 * (1 - |(0.8 : ℝ) - 0.8|) + 0.2 * 1 +
        0.1 * ((0 : ℝ) / (0 : ℝ)) = 0.82 by
      rw [sub_self, abs_zero]; norm_num]
    exact clip_of_mem _ _ _ (by norm_num) (by norm_num)
  rw [hl, hr]
  norm_num

/-- The paradox score as the amended claim describes it: the weighted sum with weights
0.4 (extremity), 0.3 (symmetry), 0.2 (tension-paradox) and 0.1 (persistence), clipped
to [0,1], where the tension-paradox component takes the value 0.5 (not 1) when both
pole magnitudes exceed 0.7 and tension is below 0.3, and the persistence component
takes the constant value 0.3 (not a fraction) when the run has more than 10 recorded
steps and the mean magnitudes of the last 10 states and of the last 10 negations both
exceed 0.7. -/
noncomputable def paradox_score_amended (history_A history_anti_A : List ℝ)
    (state anti_state tension : ℝ) : ℝ :=
  clip (0.4 * min |state| |anti_state| + 0.3 * (1 - |(|state| - |anti_state|)|) +
    0.2 * (if min |state| |anti_state| > 0.7 ∧ tension < 0.3 then (0.5 : ℝ) else 0) +
    0.1 * (if history_A.length > 10 ∧
        npMean ((lastN 10 history_A).map fun s => |s|) > 0.7 ∧
        npMean ((lastN 10 history_anti_A).map fun a => |a|) > 0.7 then (0.3 : ℝ) else 0))
    0 1

/-- C4 (amended): for every input, the code's paradox score equals the amended weighted
sum, whose tension-paradox component is 0.5 (not 1) and whose persistence component is
the constant 0.3 (not a fraction of the window). -/
theorem paradox_score_formula_amended (hA hAnti : List ℝ) (state anti_state tension : ℝ) :
    calculate_paradox_score hA hAnti state anti_state tension =
      paradox_score_amended hA hAnti state anti_state tension := by
  simp only [calculate_paradox_score, paradox_score_amended, extremity_score]
  congr 1
  ring

/-- A 21-step stage history whose final 20 entries have four distinct values, standard
deviation √2.41 ≈ 1.552 and mean 1.7. -/
def c7_stages : List ℕ :=
  [0, 0, 0, 0, 0, 0, 0, 0, 0, 1, 1, 3, 3, 3, 3, 3, 3, 3, 3, 4, 4]

/-- Counterexample to C7 as stated: with the stage history `c7_stages` (21 entries,
last-20 standard deviation ≈ 1.552 ≤ 1.8 and mean 1.7 ≤ 3) and a step on which no
earlier rule fires (tension = 0.5, both poles 0), the main engine's classifier returns
τ₈ even though the claimed condition (std > 1.8 and mean > 3) is false: the main
engine's rule is `≥ 4 distinct stages ∧ std > 1.5`, not `std > 1.8 ∧ mean > 3`. -/
theorem permanent_dialectics_rule_counterexample :
    enhanced_stage_classification 0.85 c7_stages 0.5 0 0 0 = 8 ∧
    ¬(npStd ((lastN 20 c7_stages).map fun n => (n : ℝ)) > 1.8 ∧
      npMean ((lastN 20 c7_stages).map fun n => (n : ℝ)) > 3) := by
  have h20 : lastN 20 c7_stages =
      [0, 0, 0, 0, 0, 0, 0, 0, 1, 1, 3, 3, 3, 3, 3, 3, 3, 3, 4, 4] := rfl
  have hmap : (lastN 20 c7_stages).map (fun n => (n : ℝ)) =
      [(0 : ℝ), 0, 0, 0, 0, 0, 0, 0, 1, 1, 3, 3, 3, 3, 3, 3, 3, 3, 4, 4] := by
    rw [h20]
    simp
  have hmean : npMean ((lastN 20 c7_stages).map fun n => (n : ℝ)) = 1.7 := by
    rw [hmap]
    norm_num [npMean, List.sum_cons, List.sum_nil]
  have hvar : npVar ((lastN 20 c7_stages).map fun n => (n : ℝ)) = 2.41 := by
    unfold npVar
    rw [hmean, hmap]
    norm_num [List.sum_cons, List.sum_nil]
  have hstd : npStd ((lastN 20 c7_stages).map fun n => (n : ℝ)) > 1.5 := by
    unfold npStd
    rw [hvar]
    rw [gt_iff_lt, Real.lt_sqrt (by norm_num)]
    norm_num
  constructor
  · unfold enhanced_stage_classification
    rw [if_neg (by rw [abs_zero]; norm_num), if_neg (by norm_num),
      if_pos ⟨by decide, by decide, hstd⟩]
  · rintro ⟨-, h3⟩
    rw [hmean] at h3
    norm_num at h3

/-- C7 (amended): for a step with more than 20 recorded stages on which neither of the
two earlier rules fires, the main engine's classifier returns τ₈ exactly when the last
20 stage indices have at least 4 distinct values and standard deviation above 1.5,
while the quantum-denoising classifier returns τ₈ exactly when, as the claim states,
their standard deviation exceeds 1.8 and their mean exceeds 3. -/
theorem permanent_dialectics_rule_amended (threshold : ℝ) (stages : List ℕ)
    (tension A antiA pscore : ℝ)
    (hlen : stages.length > 20)
    (h1 : ¬(|A| > 0.8 ∧ |antiA| > 0.8 ∧ tension < 0.4))
    (h2 : ¬(tension < 0.3 ∧ (|A| > 0.7 ∨ |antiA| > 0.7)))
    (h1q : ¬(|A| > 0.85 ∧ |antiA| > 0.85 ∧ tension < 0.4))
    (h2q : ¬(tension < 0.25 ∧ (|A| > 0.75 ∨ |antiA| > 0.75))) :
    (enhanced_stage_classification threshold stages tension A antiA pscore = 8 ↔
      ((lastN 20 stages).dedup.length ≥ 4 ∧
        npStd ((lastN 20 stages).map fun n => (n : ℝ)) > 1.5)) ∧
    (classify_stage threshold stages tension A antiA = 8 ↔
      (npStd ((lastN 20 stages).map fun n => (n : ℝ)) > 1.8 ∧
        npMean ((lastN 20 stages).map fun n => (n : ℝ)) > 3)) := by
  constructor
  · unfold enhanced_stage_classification
    rw [if_neg h1, if_neg h2]
    by_cases hc : (lastN 20 stages).dedup.length ≥ 4 ∧
        npStd ((lastN 20 stages).map fun n => (n : ℝ)) > 1.5
    · rw [if_pos ⟨hlen, hc⟩]
      exact iff_of_true rfl hc
    · rw [if_neg fun h => hc h.2]
      refine iff_of_false ?_ hc
      split_ifs <;> decide
  · unfold classify_stage
    rw [if_neg h1q, if_neg h2q]
    by_cases hc : npStd ((lastN 20 stages).map fun n => (n : ℝ)) > 1.8 ∧
        npMean ((lastN 20 stages).map fun n => (n : ℝ)) > 3
    · rw [if_pos ⟨hlen, hc⟩]
      exact iff_of_true rfl hc
    · rw [if_neg fun h => hc h.2]
      refine iff_of_false ?_ hc
      split_ifs <;> decide

/-- Witness for C7's amended theorem at the concrete history `c7_stages` and a step with
tension = 0.5 and both poles 0. -/
theorem permanent_dialectics_rule_amended_witness :
    c7_stages.length > 20 ∧
    ((enhanced_stage_classification 0.85 c7_stages 0.5 0 0 0 = 8 ↔
      ((lastN 20 c7_stages).dedup.length ≥ 4 ∧
        npStd ((lastN 20 c7_stages).map fun n => (n : ℝ)) > 1.5)) ∧
    (classify_stage 0.85 c7_stages 0.5 0 0 = 8 ↔
      (npStd ((lastN 20 c7_stages).map fun n => (n : ℝ)) > 1.8 ∧
        npMean ((lastN 20 c7_stages).map fun n => (n : ℝ)) > 3))) :=
  ⟨by decide, permanent_dialectics_rule_amended 0.85 c7_stages 0.5 0 0 0 (by decide)
    (by rw [abs_zero]; norm_num) (by norm_num)
    (by rw [abs_zero]; norm_num) (by norm_num)⟩

end Xeno
